import Mathlib

/-!
Shallow embedding of `multi001-v1.cpp` (Wemos MULTI001 multi-sensor MQTT
node): the sample / detect-change / publish scheduler in `loop()`, the
broker reconnect loop `connect_to_mqtt`, and the configuration data that
drives them.  Times are modelled as `Nat` milliseconds (the idealised
monotone `millis()` clock), sensor readings as `Int`.
-/

/-- `#define SENSOR_UNDEFINED_VALUE 999` -/
def SENSOR_UNDEFINED_VALUE : Int := 999

/-- `#define MQTT_PUBLISH_SOFT_INTERVAL 3000` -/
def MQTT_PUBLISH_SOFT_INTERVAL : Nat := 3000

/-- `#define MQTT_PUBLISH_HARD_INTERVAL 30000` -/
def MQTT_PUBLISH_HARD_INTERVAL : Nat := 30000

/-- `#define GPIO_SW0 14` -/
def GPIO_SW0 : Nat := 14

/-- `#define GPIO_SW1 15` -/
def GPIO_SW1 : Nat := 15

/-- `#define GPIO_SW2 16` -/
def GPIO_SW2 : Nat := 16

/-- `#define GPIO_SW3 17` -/
def GPIO_SW3 : Nat := 17

/-- The four configurable switch channels SW0..SW3. -/
inductive Sw : Type
  | sw0
  | sw1
  | sw2
  | sw3
deriving DecidableEq, Repr

/-- The fields of `struct MQTT_CONFIG` that the control loop consults
(fixed-size char buffers modelled as `String`). -/
structure MQTT_CONFIG : Type where
  servername : String
  serverport : Int
  username : String
  password : String
  topic : String
  propertyname0 : String
  propertyname1 : String
  propertyname2 : String
  propertyname3 : String
deriving DecidableEq, Repr

/-- The property-name binding of each switch channel
(`config.propertyname0` .. `config.propertyname3`). -/
def propertyname (cfg : MQTT_CONFIG) : Sw → String
  | .sw0 => cfg.propertyname0
  | .sw1 => cfg.propertyname1
  | .sw2 => cfg.propertyname2
  | .sw3 => cfg.propertyname3

/-- The pin argument actually passed to `digitalRead` for each switch
channel in `loop()` lines 366-369.  Note line 368: `CURRENT_SW2` is read
from `GPIO_SW1`, not `GPIO_SW2`. -/
def readPin : Sw → Nat
  | .sw0 => GPIO_SW0
  | .sw1 => GPIO_SW1
  | .sw2 => GPIO_SW1
  | .sw3 => GPIO_SW3

/-- One logical channel of the status message (the two AM2322 channels
plus the four switch channels). -/
inductive Channel : Type
  | humidity
  | temperature
  | sw0
  | sw1
  | sw2
  | sw3
deriving DecidableEq, Repr

/-- The channel corresponding to a switch. -/
def swChannel : Sw → Channel
  | .sw0 => .sw0
  | .sw1 => .sw1
  | .sw2 => .sw2
  | .sw3 => .sw3

/-- A full set of channel readings, as held in the `CURRENT_*` /
`PREVIOUS_*` globals. -/
structure SampleSet : Type where
  humidity : Int
  temperature : Int
  sw0 : Int
  sw1 : Int
  sw2 : Int
  sw3 : Int
deriving DecidableEq, Repr

/-- Channel-indexed access to a `SampleSet`. -/
def SampleSet.get (s : SampleSet) : Channel → Int
  | .humidity => s.humidity
  | .temperature => s.temperature
  | .sw0 => s.sw0
  | .sw1 => s.sw1
  | .sw2 => s.sw2
  | .sw3 => s.sw3

/-- The channels in the order the the source compares and serializes
them. -/
def channelList : List Channel :=
  [.humidity, .temperature, .sw0, .sw1, .sw2, .sw3]

/-- The change predicate of `loop()` line 378 (its first six disjuncts):
true iff some channel's value differs between the two sample sets.
Sentinel-vs-sentinel compares equal (unchanged); sentinel-vs-value
compares unequal (changed). -/
def hasChanged (a b : SampleSet) : Bool :=
  (a.humidity ≠ b.humidity) || (a.temperature ≠ b.temperature) ||
  (a.sw0 ≠ b.sw0) || (a.sw1 ≠ b.sw1) || (a.sw2 ≠ b.sw2) || (a.sw3 ≠ b.sw3)

/-- The same disjunction taken over an explicit list of channels, used
to state that `hasChanged` does not depend on channel order. -/
def anyChangedOn (l : List Channel) (a b : SampleSet) : Bool :=
  l.any fun c => a.get c ≠ b.get c

/-- The mutable state of `loop()`: the `CURRENT_*` and `PREVIOUS_*`
globals, the two static deadlines, and whether the MQTT session is up. -/
structure LoopState : Type where
  CURRENT_HUMIDITY : Int
  CURRENT_TEMPERATURE : Int
  CURRENT_SW0 : Int
  CURRENT_SW1 : Int
  CURRENT_SW2 : Int
  CURRENT_SW3 : Int
  PREVIOUS_HUMIDITY : Int
  PREVIOUS_TEMPERATURE : Int
  PREVIOUS_SW0 : Int
  PREVIOUS_SW1 : Int
  PREVIOUS_SW2 : Int
  PREVIOUS_SW3 : Int
  mqttPublishSoftDeadline : Nat
  mqttPublishHardDeadline : Nat
  connected : Bool
deriving DecidableEq, Repr

/-- The `CURRENT_SW0..3` global of a switch channel. -/
def LoopState.currentSw (s : LoopState) : Sw → Int
  | .sw0 => s.CURRENT_SW0
  | .sw1 => s.CURRENT_SW1
  | .sw2 => s.CURRENT_SW2
  | .sw3 => s.CURRENT_SW3

/-- The `PREVIOUS_SW0..3` global of a switch channel. -/
def LoopState.previousSw (s : LoopState) : Sw → Int
  | .sw0 => s.PREVIOUS_SW0
  | .sw1 => s.PREVIOUS_SW1
  | .sw2 => s.PREVIOUS_SW2
  | .sw3 => s.PREVIOUS_SW3

/-- The state at entry to the first `loop()` call: every `CURRENT_*` and
`PREVIOUS_*` global initialised to `SENSOR_UNDEFINED_VALUE` (lines
225-237), both static deadlines initialised to `0L` (lines 352-353). -/
def initialState : LoopState where
  CURRENT_HUMIDITY := SENSOR_UNDEFINED_VALUE
  CURRENT_TEMPERATURE := SENSOR_UNDEFINED_VALUE
  CURRENT_SW0 := SENSOR_UNDEFINED_VALUE
  CURRENT_SW1 := SENSOR_UNDEFINED_VALUE
  CURRENT_SW2 := SENSOR_UNDEFINED_VALUE
  CURRENT_SW3 := SENSOR_UNDEFINED_VALUE
  PREVIOUS_HUMIDITY := SENSOR_UNDEFINED_VALUE
  PREVIOUS_TEMPERATURE := SENSOR_UNDEFINED_VALUE
  PREVIOUS_SW0 := SENSOR_UNDEFINED_VALUE
  PREVIOUS_SW1 := SENSOR_UNDEFINED_VALUE
  PREVIOUS_SW2 := SENSOR_UNDEFINED_VALUE
  PREVIOUS_SW3 := SENSOR_UNDEFINED_VALUE
  mqttPublishSoftDeadline := 0
  mqttPublishHardDeadline := 0
  connected := false

/-- The environment of one `loop()` iteration: the `millis()` clock, the
level `digitalRead` would return on each GPIO pin, the AM2322 read
outcome (`some (temperature, humidity)` when `AM2322.read() == AM232X_OK`,
with the two values already rounded to `int`; `none` on failure), and the
boolean result `mqttClient.publish` would return. -/
structure TickInput : Type where
  now : Nat
  pins : Nat → Int
  amRead : Option (Int × Int)
  pubOk : Bool

/-- One observable MQTT transmission: `mqttClient.publish(topic,
message, true)` at a given clock time, with the broker-library result. -/
structure PublishEvent : Type where
  time : Nat
  topic : String
  message : List (String × Int)
  ok : Bool
deriving DecidableEq, Repr

/-- The sample set held in the `CURRENT_*` globals after the sensor-read
block of `loop()` (lines 366-376) runs in state `s` with environment
`i`: each switch channel with a non-empty property name is read from its
`readPin`, the others keep their old value; on AM2322 success temperature
and humidity take the read values, on failure both take the 999
sentinel. -/
def sampleCurrent (cfg : MQTT_CONFIG) (s : LoopState) (i : TickInput) : SampleSet where
  humidity :=
    match i.amRead with
    | some th => th.2
    | none => SENSOR_UNDEFINED_VALUE
  temperature :=
    match i.amRead with
    | some th => th.1
    | none => SENSOR_UNDEFINED_VALUE
  sw0 := if cfg.propertyname0 ≠ "" then i.pins (readPin .sw0) else s.CURRENT_SW0
  sw1 := if cfg.propertyname1 ≠ "" then i.pins (readPin .sw1) else s.CURRENT_SW1
  sw2 := if cfg.propertyname2 ≠ "" then i.pins (readPin .sw2) else s.CURRENT_SW2
  sw3 := if cfg.propertyname3 ≠ "" then i.pins (readPin .sw3) else s.CURRENT_SW3

/-- The sample set held in the `PREVIOUS_*` globals. -/
def prevSample (s : LoopState) : SampleSet where
  humidity := s.PREVIOUS_HUMIDITY
  temperature := s.PREVIOUS_TEMPERATURE
  sw0 := s.PREVIOUS_SW0
  sw1 := s.PREVIOUS_SW1
  sw2 := s.PREVIOUS_SW2
  sw3 := s.PREVIOUS_SW3

/-- The association list serialized from `jsonBuffer` (lines 379-385):
`humidity` and `temperature` always, then each switch channel guarded by
`strlen(propertynameN)`. -/
def statusMessage (cfg : MQTT_CONFIG) (cur : SampleSet) : List (String × Int) :=
  [("humidity", cur.humidity), ("temperature", cur.temperature)]
    ++ (if cfg.propertyname0 ≠ "" then [(cfg.propertyname0, cur.sw0)] else [])
    ++ (if cfg.propertyname1 ≠ "" then [(cfg.propertyname1, cur.sw1)] else [])
    ++ (if cfg.propertyname2 ≠ "" then [(cfg.propertyname2, cur.sw2)] else [])
    ++ (if cfg.propertyname3 ≠ "" then [(cfg.propertyname3, cur.sw3)] else [])

/-- Write a sample set into the `CURRENT_*` globals. -/
def writeCurrent (s : LoopState) (cur : SampleSet) : LoopState :=
  { s with
    CURRENT_HUMIDITY := cur.humidity
    CURRENT_TEMPERATURE := cur.temperature
    CURRENT_SW0 := cur.sw0
    CURRENT_SW1 := cur.sw1
    CURRENT_SW2 := cur.sw2
    CURRENT_SW3 := cur.sw3 }

/-- The state update of the publish branch (lines 379-401): copy the
`CURRENT_*` globals into `PREVIOUS_*` and reset the hard deadline to
`now + MQTT_PUBLISH_HARD_INTERVAL`.  The source performs these
assignments unconditionally after calling `mqttClient.publish`,
ignoring its boolean result. -/
def commitPublish (s : LoopState) (now : Nat) : LoopState :=
  { s with
    PREVIOUS_HUMIDITY := s.CURRENT_HUMIDITY
    PREVIOUS_TEMPERATURE := s.CURRENT_TEMPERATURE
    PREVIOUS_SW0 := s.CURRENT_SW0
    PREVIOUS_SW1 := s.CURRENT_SW1
    PREVIOUS_SW2 := s.CURRENT_SW2
    PREVIOUS_SW3 := s.CURRENT_SW3
    mqttPublishHardDeadline := now + MQTT_PUBLISH_HARD_INTERVAL }

/-- The body of the soft-deadline guard of `loop()` (lines 364-404):
read the sensors, decide `due` by the line-378 condition, publish and
commit when due, and unconditionally advance the soft deadline to
`now + MQTT_PUBLISH_SOFT_INTERVAL`. -/
def tickBody (cfg : MQTT_CONFIG) (s : LoopState) (i : TickInput) :
    LoopState × Option PublishEvent :=
  let cur := sampleCurrent cfg s i
  let s1 := writeCurrent s cur
  if hasChanged cur (prevSample s) || decide (s.mqttPublishHardDeadline < i.now) then
    ({ commitPublish s1 i.now with
        mqttPublishSoftDeadline := i.now + MQTT_PUBLISH_SOFT_INTERVAL },
      some ⟨i.now, cfg.topic, statusMessage cfg cur, i.pubOk⟩)
  else
    ({ s1 with mqttPublishSoftDeadline := i.now + MQTT_PUBLISH_SOFT_INTERVAL }, none)

/-- One call of `loop()`: `connect_to_mqtt` first restores the broker
session whenever it is down (so the session is up from here on), then
the soft-deadline guard `now > mqttPublishSoftDeadline` decides whether
the sample/compare/publish body runs at all. -/
def loopTick (cfg : MQTT_CONFIG) (s : LoopState) (i : TickInput) :
    LoopState × Option PublishEvent :=
  let s0 := { s with connected := true }
  if s.mqttPublishSoftDeadline < i.now then tickBody cfg s0 i else (s0, none)

/-- Run `loop()` over a list of tick environments, collecting the
publish events in order. -/
def runLoop (cfg : MQTT_CONFIG) (s : LoopState) :
    List TickInput → LoopState × List PublishEvent
  | [] => (s, [])
  | i :: rest =>
    let r := loopTick cfg s i
    let r2 := runLoop cfg r.1 rest
    (r2.1, r.2.toList ++ r2.2)

/-- `connect_to_mqtt` (lines 150-174) driven by the list of outcomes of
successive `mqttClient.connect` attempts: returns the list of backoff
waits performed (one `delay(5000)` after each failed attempt) and
whether the loop exited with the session established.  An exhausted
outcome list means the loop is still retrying. -/
def connectTrace : List Bool → List Nat × Bool
  | [] => ([], false)
  | b :: rest =>
    if b then ([], true)
    else
      let r := connectTrace rest
      (5000 :: r.1, r.2)

/-! ### Concrete fixtures used by witnesses and counterexamples -/

/-- A configuration with only SW0 bound (to `tilt`). -/
def cfgW : MQTT_CONFIG where
  servername := "broker.local"
  serverport := 1883
  username := "user"
  password := "pass"
  topic := "multi/status"
  propertyname0 := "tilt"
  propertyname1 := ""
  propertyname2 := ""
  propertyname3 := ""

/-- A configuration with every switch channel disabled. -/
def cfgNone : MQTT_CONFIG where
  servername := "broker.local"
  serverport := 1883
  username := "user"
  password := "pass"
  topic := "multi/status"
  propertyname0 := ""
  propertyname1 := ""
  propertyname2 := ""
  propertyname3 := ""

/-- A tick environment: clock at 5000 ms, all pins low, AM2322 returning
22 degrees and 45 percent, broker transmission succeeding. -/
def tickW : TickInput where
  now := 5000
  pins := fun _ => 0
  amRead := some (22, 45)
  pubOk := true

/-! ### Helper lemmas -/

/-- `anyChangedOn` over the canonical channel list is the line-378
change disjunction. -/
theorem anyChangedOn_channelList (a b : SampleSet) :
    anyChangedOn channelList a b = hasChanged a b := by
  simp [anyChangedOn, channelList, hasChanged, SampleSet.get, Bool.or_assoc]

/-- `List.any` is invariant under permutation of the list. -/
theorem any_perm {α : Type} {l₁ l₂ : List α} (h : l₁.Perm l₂) (p : α → Bool) :
    l₁.any p = l₂.any p := by
  induction h with
  | nil => rfl
  | cons x _ ih => simp only [List.any_cons, ih]
  | swap x y l =>
      simp only [List.any_cons]
      rw [← Bool.or_assoc, ← Bool.or_assoc, Bool.or_comm (p y) (p x)]
  | trans _ _ ih₁ ih₂ => exact ih₁.trans ih₂

/-- `anyChangedOn` is invariant under permutation of the channel list. -/
theorem anyChangedOn_perm {l₁ l₂ : List Channel} (h : l₁.Perm l₂)
    (a b : SampleSet) : anyChangedOn l₁ a b = anyChangedOn l₂ a b :=
  any_perm h _

/-! ### C6 -/

/-- C6: the change predicate of `loop()` line 378 is symmetric, returns
`false` on identical sample sets, and its value does not depend on the
order in which the channels are compared: any permutation of the channel
list yields the same result as the source's fixed disjunction. -/
theorem hasChanged_symm_irrefl_orderfree (a b : SampleSet) :
    hasChanged a b = hasChanged b a ∧ hasChanged a a = false ∧
    ∀ l : List Channel, l.Perm channelList → anyChangedOn l a b = hasChanged a b := by
  refine ⟨?_, ?_, ?_⟩
  · simp [hasChanged, ne_comm]
  · simp [hasChanged]
  · intro l hl
    rw [anyChangedOn_perm hl, anyChangedOn_channelList]

/-- Witness for C6 at concrete sample sets and a reversed channel
order. -/
theorem hasChanged_symm_irrefl_orderfree_witness :
    anyChangedOn [Channel.sw3, .sw2, .sw1, .sw0, .temperature, .humidity]
        ⟨45, 22, 1, 0, 999, 999⟩ ⟨46, 22, 0, 0, 999, 5⟩
      = hasChanged ⟨45, 22, 1, 0, 999, 999⟩ ⟨46, 22, 0, 0, 999, 5⟩ :=
  (hasChanged_symm_irrefl_orderfree _ _).2.2 _ (by decide)

/-! ### C8 -/

/-- C8: if `mqttClient.connect` fails exactly `n` times and then
succeeds, `connect_to_mqtt` performs exactly `n` backoff waits of
5000 ms (one after each failure, none after the success) and exits with
the broker session established; `n` is arbitrary because the retry loop
has no iteration bound. -/
theorem connect_backoff_count (n : Nat) :
    connectTrace (List.replicate n false ++ [true]) = (List.replicate n 5000, true) := by
  induction n with
  | zero => simp [connectTrace]
  | succ n ih => simp [List.replicate_succ, connectTrace, ih]

/-! ### C1 -/

/-- A tick at 5000 ms on which the broker transmission fails. -/
def tickFail : TickInput where
  now := 5000
  pins := fun _ => 0
  amRead := some (22, 45)
  pubOk := false

/-- C1 counterexample: on a tick whose publish transmission fails
(`mqttClient.publish` returns false), the source still overwrites the
`PREVIOUS_*` snapshot and `mqttPublishHardDeadline` (lines 386-401
ignore the publish result), so they do not stay unchanged. -/
theorem snapshot_overwritten_on_failed_publish :
    tickFail.pubOk = false ∧
    (loopTick cfgW initialState tickFail).2 =
      some ⟨5000, "multi/status",
        [("humidity", 45), ("temperature", 22), ("tilt", 0)], false⟩ ∧
    initialState.PREVIOUS_TEMPERATURE = 999 ∧
    (loopTick cfgW initialState tickFail).1.PREVIOUS_TEMPERATURE = 22 ∧
    initialState.mqttPublishHardDeadline = 0 ∧
    (loopTick cfgW initialState tickFail).1.mqttPublishHardDeadline = 35000 := by
  decide

/-- C1 (amended): the published snapshot and the hard deadline are
updated immediately after every publish *attempt*, successful or not —
`mqttClient.publish`'s result is ignored — and on a tick with no publish
attempt both are left unchanged. -/
theorem snapshot_and_hard_deadline_follow_publish_attempt
    (cfg : MQTT_CONFIG) (s : LoopState) (i : TickInput) :
    ((loopTick cfg s i).2.isSome →
      prevSample (loopTick cfg s i).1 = sampleCurrent cfg s i ∧
      (loopTick cfg s i).1.mqttPublishHardDeadline
        = i.now + MQTT_PUBLISH_HARD_INTERVAL) ∧
    ((loopTick cfg s i).2 = none →
      prevSample (loopTick cfg s i).1 = prevSample s ∧
      (loopTick cfg s i).1.mqttPublishHardDeadline
        = s.mqttPublishHardDeadline) := by
  unfold loopTick tickBody
  split
  · dsimp only
    split
    · exact ⟨fun _ => ⟨rfl, rfl⟩, fun h => by simp at h⟩
    · exact ⟨fun h => by simp at h, fun _ => ⟨rfl, rfl⟩⟩
  · exact ⟨fun h => by simp at h, fun _ => ⟨rfl, rfl⟩⟩

/-- Witness for the amended C1 at a concrete failing transmission: the
snapshot is overwritten with the current sample and the hard deadline
reset even though `pubOk = false`. -/
theorem snapshot_follow_attempt_witness :
    prevSample (loopTick cfgW initialState tickFail).1
      = sampleCurrent cfgW initialState tickFail ∧
    (loopTick cfgW initialState tickFail).1.mqttPublishHardDeadline
      = 5000 + MQTT_PUBLISH_HARD_INTERVAL :=
  (snapshot_and_hard_deadline_follow_publish_attempt cfgW initialState tickFail).1
    (by decide)

/-! ### C2 -/

/-- C2: at boot the previous snapshot is all-sentinel, and the first
scheduler tick (the first `loop()` call whose clock passes the
soft-deadline guard `now > 0`) publishes for every possible sensor
outcome — any pin levels and any AM2322 result, including total failure
where every channel is the 999 sentinel. -/
theorem first_tick_always_publishes (cfg : MQTT_CONFIG) (i : TickInput)
    (h : 0 < i.now) :
    prevSample initialState =
      ⟨SENSOR_UNDEFINED_VALUE, SENSOR_UNDEFINED_VALUE, SENSOR_UNDEFINED_VALUE,
        SENSOR_UNDEFINED_VALUE, SENSOR_UNDEFINED_VALUE, SENSOR_UNDEFINED_VALUE⟩ ∧
    (loopTick cfg initialState i).2.isSome := by
  refine ⟨rfl, ?_⟩
  have hg : initialState.mqttPublishSoftDeadline < i.now := h
  simp only [loopTick, tickBody, if_pos hg]
  have hd : decide (({ initialState with connected := true } :
      LoopState).mqttPublishHardDeadline < i.now) = true := by
    simpa [initialState] using h
  rw [hd, Bool.or_true, if_pos rfl]
  rfl

/-- Witness for C2 at a concrete first tick. -/
theorem first_tick_always_publishes_witness :
    prevSample initialState =
      ⟨SENSOR_UNDEFINED_VALUE, SENSOR_UNDEFINED_VALUE, SENSOR_UNDEFINED_VALUE,
        SENSOR_UNDEFINED_VALUE, SENSOR_UNDEFINED_VALUE, SENSOR_UNDEFINED_VALUE⟩ ∧
    (loopTick cfgW initialState tickW).2.isSome :=
  first_tick_always_publishes cfgW tickW (by decide)

/-! ### C4 -/

/-- C4: on any tick that runs (clock past the soft deadline) with the
clock also past the hard deadline, the due-condition of line 378 holds
through its final disjunct and a publish is attempted at that very
clock time, for every configuration, state and sensor outcome — in
particular when no channel changed. -/
theorem hard_deadline_forces_publish (cfg : MQTT_CONFIG) (s : LoopState)
    (i : TickInput) (hs : s.mqttPublishSoftDeadline < i.now)
    (hh : s.mqttPublishHardDeadline < i.now) :
    ∃ e, (loopTick cfg s i).2 = some e ∧ e.time = i.now := by
  unfold loopTick tickBody
  rw [if_pos hs]
  have hd : (hasChanged (sampleCurrent cfg { s with connected := true } i)
      (prevSample { s with connected := true }) ||
      decide (({ s with connected := true } :
        LoopState).mqttPublishHardDeadline < i.now)) = true := by
    simpa using Or.inr hh
  rw [if_pos hd]
  exact ⟨_, rfl, rfl⟩

/-- A heartbeat tick: clock at 31000 ms, AM2322 failing, all switch
channels disabled, so the sample equals the previous snapshot. -/
def tickHB : TickInput where
  now := 31000
  pins := fun _ => 0
  amRead := none
  pubOk := true

/-- Witness for C4 on a tick where nothing changed: the hard deadline
alone forces the publish. -/
theorem hard_deadline_forces_publish_witness :
    ∃ e, (loopTick cfgNone initialState tickHB).2 = some e ∧ e.time = 31000 :=
  hard_deadline_forces_publish cfgNone initialState tickHB (by decide) (by decide)

/-! ### C5 -/

/-- Setting the `connected` flag does not affect the sampled values. -/
theorem sampleCurrent_connected (cfg : MQTT_CONFIG) (s : LoopState) (i : TickInput) :
    sampleCurrent cfg { s with connected := true } i = sampleCurrent cfg s i := rfl

/-- Setting the `connected` flag does not affect the previous snapshot. -/
theorem prevSample_connected (s : LoopState) :
    prevSample { s with connected := true } = prevSample s := rfl

/-- A disabled switch channel samples to its old current value. -/
theorem sampleCurrent_empty (cfg : MQTT_CONFIG) (s : LoopState) (i : TickInput)
    (k : Sw) (hk : propertyname cfg k = "") :
    (sampleCurrent cfg s i).get (swChannel k) = s.currentSw k := by
  cases k <;>
    simp_all [sampleCurrent, SampleSet.get, swChannel, propertyname, LoopState.currentSw]

/-- The previous snapshot's switch entries. -/
theorem prevSample_get_sw (s : LoopState) (k : Sw) :
    (prevSample s).get (swChannel k) = s.previousSw k := by
  cases k <;> rfl

/-- The keys of the serialized message: `humidity`, `temperature`, and
exactly the non-empty property names. -/
theorem mem_statusMessage_keys (cfg : MQTT_CONFIG) (cur : SampleSet) (x : String) :
    x ∈ (statusMessage cfg cur).map Prod.fst ↔
      x = "humidity" ∨ x = "temperature" ∨
      (x = cfg.propertyname0 ∧ cfg.propertyname0 ≠ "") ∨
      (x = cfg.propertyname1 ∧ cfg.propertyname1 ≠ "") ∨
      (x = cfg.propertyname2 ∧ cfg.propertyname2 ≠ "") ∨
      (x = cfg.propertyname3 ∧ cfg.propertyname3 ≠ "") := by
  unfold statusMessage
  split_ifs <;> simp_all

/-- C5: a switch channel whose configured property name is empty is
never sampled — its `CURRENT_SW` global is left untouched by every tick
— and its key never occurs among the keys of any message handed to
`mqttClient.publish`. -/
theorem empty_name_channel_inert (cfg : MQTT_CONFIG) (s : LoopState) (i : TickInput)
    (k : Sw) (hk : propertyname cfg k = "") :
    (loopTick cfg s i).1.currentSw k = s.currentSw k ∧
    ∀ e, (loopTick cfg s i).2 = some e →
      propertyname cfg k ∉ e.message.map Prod.fst := by
  constructor
  · unfold loopTick tickBody
    split
    · dsimp only
      split
      · cases k <;>
          simp_all [sampleCurrent, propertyname, LoopState.currentSw, writeCurrent,
            commitPublish]
      · cases k <;>
          simp_all [sampleCurrent, propertyname, LoopState.currentSw, writeCurrent]
    · cases k <;> rfl
  · intro e he
    unfold loopTick tickBody at he
    dsimp only at he
    split at he
    · split at he
      · rw [Option.some_inj] at he
        subst he
        rw [hk, mem_statusMessage_keys]
        rintro (h | h | ⟨h, hne⟩ | ⟨h, hne⟩ | ⟨h, hne⟩ | ⟨h, hne⟩) <;>
          simp_all
      · exact absurd he (by simp)
    · exact absurd he (by simp)

/-- Witness for C5: channel SW1 is unbound in `cfgW`; on a publishing
tick its current value is untouched and its (empty) key is absent from
the transmitted message. -/
theorem empty_name_channel_inert_witness :
    (loopTick cfgW initialState tickW).1.currentSw Sw.sw1
      = initialState.currentSw Sw.sw1 ∧
    propertyname cfgW Sw.sw1 ∉
      ((⟨5000, "multi/status",
          [("humidity", 45), ("temperature", 22), ("tilt", 0)], true⟩ :
        PublishEvent).message.map Prod.fst) :=
  ⟨(empty_name_channel_inert cfgW initialState tickW Sw.sw1 rfl).1,
    (empty_name_channel_inert cfgW initialState tickW Sw.sw1 rfl).2 _ (by decide)⟩

/-! ### C7 -/

/-- C7: on a tick that runs while the AM2322 read fails, both the
temperature and humidity channels take the 999 sentinel, every switch
channel is still sampled by its normal rule, the publish decision is
still exactly the line-378 due-condition (the failure does not suppress
publishing), any transmitted message carries `temperature` and
`humidity` as 999, and the broker session is connected afterwards just
as on any other tick. -/
theorem am_failure_localized (cfg : MQTT_CONFIG) (s : LoopState) (i : TickInput)
    (hs : s.mqttPublishSoftDeadline < i.now) (hfail : i.amRead = none) :
    (loopTick cfg s i).1.CURRENT_TEMPERATURE = SENSOR_UNDEFINED_VALUE ∧
    (loopTick cfg s i).1.CURRENT_HUMIDITY = SENSOR_UNDEFINED_VALUE ∧
    (∀ k : Sw, (loopTick cfg s i).1.currentSw k =
      if propertyname cfg k ≠ "" then i.pins (readPin k) else s.currentSw k) ∧
    ((loopTick cfg s i).2.isSome =
      (hasChanged (sampleCurrent cfg s i) (prevSample s) ||
        decide (s.mqttPublishHardDeadline < i.now))) ∧
    (∀ e, (loopTick cfg s i).2 = some e →
      ("temperature", SENSOR_UNDEFINED_VALUE) ∈ e.message ∧
      ("humidity", SENSOR_UNDEFINED_VALUE) ∈ e.message) ∧
    (loopTick cfg s i).1.connected = true := by
  unfold loopTick tickBody
  rw [if_pos hs]
  dsimp only
  rw [sampleCurrent_connected, prevSample_connected]
  split
  · refine ⟨?_, ?_, ?_, ?_, ?_, rfl⟩
    · simp [commitPublish, writeCurrent, sampleCurrent, hfail]
    · simp [commitPublish, writeCurrent, sampleCurrent, hfail]
    · intro k
      cases k <;>
        simp [commitPublish, writeCurrent, sampleCurrent, propertyname,
          LoopState.currentSw, readPin]
    · simp_all
    · intro e he
      rw [Option.some_inj] at he
      subst he
      constructor
      · simp [statusMessage, sampleCurrent, hfail]
      · simp [statusMessage, sampleCurrent, hfail]
  · refine ⟨?_, ?_, ?_, ?_, ?_, rfl⟩
    · simp [writeCurrent, sampleCurrent, hfail]
    · simp [writeCurrent, sampleCurrent, hfail]
    · intro k
      cases k <;>
        simp [writeCurrent, sampleCurrent, propertyname, LoopState.currentSw, readPin]
    · simp_all
    · intro e he
      exact absurd he (by simp)

/-- Witness for C7: a failing AM2322 read on a publishing tick. -/
theorem am_failure_localized_witness :
    (loopTick cfgW initialState tickHB).1.CURRENT_TEMPERATURE
      = SENSOR_UNDEFINED_VALUE ∧
    (loopTick cfgW initialState tickHB).1.CURRENT_SW0
      = tickHB.pins (readPin Sw.sw0) ∧
    ("temperature", SENSOR_UNDEFINED_VALUE) ∈
      ((⟨31000, "multi/status",
          [("humidity", 999), ("temperature", 999), ("tilt", 0)], true⟩ :
        PublishEvent).message) ∧
    (loopTick cfgW initialState tickHB).1.connected = true := by
  obtain ⟨h1, _, h3, _, h5, h6⟩ :=
    am_failure_localized cfgW initialState tickHB (by decide) rfl
  exact ⟨h1, by simpa using h3 Sw.sw0, (h5 _ (by decide)).1, h6⟩

/-! ### C9 -/

/-- A configuration binding SW1 and SW2 only. -/
def cfg9 : MQTT_CONFIG where
  servername := "broker.local"
  serverport := 1883
  username := "user"
  password := "pass"
  topic := "multi/status"
  propertyname0 := ""
  propertyname1 := "one"
  propertyname2 := "two"
  propertyname3 := ""

/-- A tick on which pin 16 (`GPIO_SW2`) reads high and every other pin
reads low. -/
def tick9 : TickInput where
  now := 5000
  pins := fun p => if p = 16 then 1 else 0
  amRead := some (22, 45)
  pubOk := true

/-- C9 evaluated at the failing input: with SW1 and SW2 both enabled,
line 368 reads `GPIO_SW1` for `CURRENT_SW2`, so the two channels sample
the same pin; a high level on `GPIO_SW2` (pin 16) is invisible —
`CURRENT_SW2` takes pin 15's low level instead of pin 16's high one. -/
theorem sw2_samples_sw1_pin :
    readPin Sw.sw2 = readPin Sw.sw1 ∧
    readPin Sw.sw2 ≠ GPIO_SW2 ∧
    propertyname cfg9 Sw.sw1 ≠ "" ∧
    propertyname cfg9 Sw.sw2 ≠ "" ∧
    tick9.pins GPIO_SW2 = 1 ∧
    (loopTick cfg9 initialState tick9).1.CURRENT_SW2 = 0 ∧
    (loopTick cfg9 initialState tick9).1.CURRENT_SW1 = 0 := by
  decide

/-! ### C10 -/

/-- One tick preserves the all-sentinel invariant of a switch channel
with an empty property name. -/
theorem loopTick_disabled_sw (cfg : MQTT_CONFIG) (s : LoopState) (i : TickInput)
    (k : Sw) (hk : propertyname cfg k = "")
    (hc : s.currentSw k = SENSOR_UNDEFINED_VALUE)
    (hp : s.previousSw k = SENSOR_UNDEFINED_VALUE) :
    (loopTick cfg s i).1.currentSw k = SENSOR_UNDEFINED_VALUE ∧
    (loopTick cfg s i).1.previousSw k = SENSOR_UNDEFINED_VALUE := by
  unfold loopTick tickBody
  split
  · dsimp only
    split
    · cases k <;>
        simp_all [sampleCurrent, propertyname, LoopState.currentSw,
          LoopState.previousSw, writeCurrent, commitPublish]
    · cases k <;>
        simp_all [sampleCurrent, propertyname, LoopState.currentSw,
          LoopState.previousSw, writeCurrent]
  · cases k <;> exact ⟨hc, hp⟩

/-- The invariant carried along any run. -/
theorem runLoop_disabled_sw (cfg : MQTT_CONFIG) (k : Sw)
    (hk : propertyname cfg k = "") :
    ∀ (ins : List TickInput) (s : LoopState),
      s.currentSw k = SENSOR_UNDEFINED_VALUE →
      s.previousSw k = SENSOR_UNDEFINED_VALUE →
      (runLoop cfg s ins).1.currentSw k = SENSOR_UNDEFINED_VALUE ∧
      (runLoop cfg s ins).1.previousSw k = SENSOR_UNDEFINED_VALUE := by
  intro ins
  induction ins with
  | nil => exact fun s hc hp => ⟨hc, hp⟩
  | cons i rest ih =>
      intro s hc hp
      obtain ⟨h1, h2⟩ := loopTick_disabled_sw cfg s i k hk hc hp
      exact ih _ h1 h2

/-- C10: starting from boot, a switch channel with an empty property
name keeps both its `CURRENT_SW` and `PREVIOUS_SW` globals at the 999
sentinel after every run of the loop, and at every reachable state its
channel contributes equal current and previous entries, so it can never
make the change predicate true on its own. -/
theorem disabled_channel_invariant (cfg : MQTT_CONFIG) (k : Sw)
    (hk : propertyname cfg k = "") (ins : List TickInput) :
    (runLoop cfg initialState ins).1.currentSw k = SENSOR_UNDEFINED_VALUE ∧
    (runLoop cfg initialState ins).1.previousSw k = SENSOR_UNDEFINED_VALUE ∧
    ∀ j : TickInput,
      (sampleCurrent cfg (runLoop cfg initialState ins).1 j).get (swChannel k)
        = (prevSample (runLoop cfg initialState ins).1).get (swChannel k) := by
  obtain ⟨h1, h2⟩ :=
    runLoop_disabled_sw cfg k hk ins initialState (by cases k <;> rfl)
      (by cases k <;> rfl)
  refine ⟨h1, h2, fun j => ?_⟩
  rw [sampleCurrent_empty _ _ _ _ hk, prevSample_get_sw, h1, h2]

/-- Witness for C10: SW1 is unbound in `cfgW`; after a two-tick run both
its globals are still 999 and its channel compares equal. -/
theorem disabled_channel_invariant_witness :
    (runLoop cfgW initialState [tickW, tickFail]).1.currentSw Sw.sw1
      = SENSOR_UNDEFINED_VALUE ∧
    (runLoop cfgW initialState [tickW, tickFail]).1.previousSw Sw.sw1
      = SENSOR_UNDEFINED_VALUE ∧
    (sampleCurrent cfgW (runLoop cfgW initialState [tickW, tickFail]).1 tickHB).get
        (swChannel Sw.sw1)
      = (prevSample (runLoop cfgW initialState [tickW, tickFail]).1).get
        (swChannel Sw.sw1) := by
  obtain ⟨h1, h2, h3⟩ :=
    disabled_channel_invariant cfgW Sw.sw1 rfl [tickW, tickFail]
  exact ⟨h1, h2, h3 tickHB⟩

/-! ### C3 -/

/-- The soft deadline never moves backwards across a tick: an executed
tick sets it to `now + MQTT_PUBLISH_SOFT_INTERVAL` with `now` past the
old deadline, and a throttled tick leaves it alone. -/
theorem loopTick_soft_mono (cfg : MQTT_CONFIG) (s : LoopState) (i : TickInput) :
    s.mqttPublishSoftDeadline ≤ (loopTick cfg s i).1.mqttPublishSoftDeadline := by
  unfold loopTick tickBody
  split
  · dsimp only
    split <;> (dsimp only; omega)
  · exact Nat.le_refl _

/-- Every publish event of a tick happens strictly after the entry soft
deadline, and leaves the soft deadline one interval past itself. -/
theorem loopTick_event_soft (cfg : MQTT_CONFIG) (s : LoopState) (i : TickInput)
    (e : PublishEvent) (he : (loopTick cfg s i).2 = some e) :
    s.mqttPublishSoftDeadline < e.time ∧
    (loopTick cfg s i).1.mqttPublishSoftDeadline
      = e.time + MQTT_PUBLISH_SOFT_INTERVAL := by
  unfold loopTick tickBody at he ⊢
  dsimp only at he ⊢
  split at he
  next hg =>
    split at he
    next hd =>
      rw [Option.some_inj] at he
      subst he
      rw [if_pos hg, if_pos hd]
      exact ⟨hg, rfl⟩
    next hd => exact absurd he (by simp)
  next hg => exact absurd he (by simp)

/-- Every publish event of a run happens strictly after the soft
deadline at the run's start. -/
theorem runLoop_event_lb (cfg : MQTT_CONFIG) :
    ∀ (ins : List TickInput) (s : LoopState) (e : PublishEvent),
      e ∈ (runLoop cfg s ins).2 → s.mqttPublishSoftDeadline < e.time := by
  intro ins
  induction ins with
  | nil => intro s e he; simp [runLoop] at he
  | cons i rest ih =>
      intro s e he
      unfold runLoop at he
      dsimp only at he
      rw [List.mem_append, Option.mem_toList, Option.mem_def] at he
      rcases he with he | he
      · exact (loopTick_event_soft cfg s i e he).1
      · exact Nat.lt_of_le_of_lt (loopTick_soft_mono cfg s i) (ih _ e he)

/-- The publish events of a run are pairwise separated by more than the
soft interval. -/
theorem runLoop_spacing (cfg : MQTT_CONFIG) :
    ∀ (ins : List TickInput) (s : LoopState),
      ((runLoop cfg s ins).2).Pairwise
        (fun a b => a.time + MQTT_PUBLISH_SOFT_INTERVAL < b.time) := by
  intro ins
  induction ins with
  | nil => intro s; simp [runLoop]
  | cons i rest ih =>
      intro s
      unfold runLoop
      dsimp only
      refine List.pairwise_append.2 ⟨?_, ih _, ?_⟩
      · cases hr : (loopTick cfg s i).2 <;> simp [List.pairwise_singleton]
      · intro a ha b hb
        rw [Option.mem_toList, Option.mem_def] at ha
        have h1 := (loopTick_event_soft cfg s i a ha).2
        have h2 := runLoop_event_lb cfg rest _ b hb
        omega

/-- C3: along any execution of the loop from boot, any two distinct
publish events are more than `MQTT_PUBLISH_SOFT_INTERVAL` = 3000 ms
apart — so certainly never less than 3000 ms apart — whatever the
sensor inputs do on each tick. -/
theorem publish_soft_interval_spacing (cfg : MQTT_CONFIG) (ins : List TickInput)
    (i j : Nat) (hij : i < j) (e1 e2 : PublishEvent)
    (h1 : (runLoop cfg initialState ins).2[i]? = some e1)
    (h2 : (runLoop cfg initialState ins).2[j]? = some e2) :
    MQTT_PUBLISH_SOFT_INTERVAL ≤ e2.time - e1.time ∧
    e1.time + MQTT_PUBLISH_SOFT_INTERVAL < e2.time := by
  have hp := runLoop_spacing cfg ins initialState
  rw [List.pairwise_iff_getElem] at hp
  obtain ⟨hi, hie⟩ := List.getElem?_eq_some.1 h1
  obtain ⟨hj, hje⟩ := List.getElem?_eq_some.1 h2
  have := hp i j hi hj hij
  rw [hie, hje] at this
  omega

/-- Two ticks whose samples change each time: 22→23 degrees. -/
def insW2 : List TickInput :=
  [⟨4000, fun _ => 0, some (22, 45), true⟩, ⟨8000, fun _ => 0, some (23, 45), true⟩]

/-- The first publish of `insW2`. -/
def evA : PublishEvent :=
  ⟨4000, "multi/status", [("humidity", 45), ("temperature", 22), ("tilt", 0)], true⟩

/-- The second publish of `insW2`. -/
def evB : PublishEvent :=
  ⟨8000, "multi/status", [("humidity", 45), ("temperature", 23), ("tilt", 0)], true⟩

/-- Witness for C3 on a concrete two-publish run. -/
theorem publish_soft_interval_spacing_witness :
    MQTT_PUBLISH_SOFT_INTERVAL ≤ evB.time - evA.time ∧
    evA.time + MQTT_PUBLISH_SOFT_INTERVAL < evB.time :=
  publish_soft_interval_spacing cfgW insW2 0 1 (by decide) evA evB
    (by decide) (by decide)

/-- Witness for C8 at three failures then success. -/
theorem connect_backoff_count_witness :
    connectTrace (List.replicate 3 false ++ [true]) = (List.replicate 3 5000, true) :=
  connect_backoff_count 3
